import Mathlib

/-
Verification of the wallet-health fixture generator
(`src/wallet-generator.ts`, class `WalletHealthGenerator`).

The TypeScript source drives a regtest Bitcoin node through an RPC
gateway.  We embed it shallowly: every RPC issued by the code becomes an
event of type `Ev`; the gateway's behaviour is either an explicit oracle
(`Ev → Bool`, or per-step `Except` results) or, for the orchestration
level, a deterministic node-state model.  Fallible TypeScript code
becomes `Except Err _`; JavaScript numbers carrying BTC amounts become
`ℚ`; fresh receiving addresses are modelled by a counter (the node hands
out a previously unseen address on every `getnewaddress`).
-/

/-- Errors surfaced by the RPC gateway: a numeric code (Bitcoin Core RPC
error code, e.g. -18 for "wallet does not exist") and a message. -/
structure Err where
  code : Int
  msg : String
deriving DecidableEq, Repr

/-- Generic gateway failure used where the source only observes that the
awaited command rejected. -/
def gatewayErr : Err := ⟨-1, "gateway failure"⟩

instance {α β : Type} [DecidableEq α] [DecidableEq β] : DecidableEq (Except α β)
  | .ok a, .ok b =>
    if h : a = b then .isTrue (by rw [h])
    else .isFalse (by intro hh; cases hh; exact h rfl)
  | .error a, .error b =>
    if h : a = b then .isTrue (by rw [h])
    else .isFalse (by intro hh; cases hh; exact h rfl)
  | .ok _, .error _ => .isFalse (by intro hh; cases hh)
  | .error _, .ok _ => .isFalse (by intro hh; cases hh)

/-- Error thrown by `setupBitcoinEnvironment`'s catch-all handler
(line 72 of the source). -/
def connErr : Err := ⟨0, "Bitcoin Core not accessible"⟩

/-- Model of JavaScript `string.includes(needle)`. -/
def msgIncludes (needle hay : String) : Bool :=
  decide (needle.toList <:+: hay.toList)

/-- Model of JavaScript `s.padStart(4, <zero char>)`. -/
def padStart4 (s : String) : String :=
  if s.length ≥ 4 then s
  else String.mk (List.replicate (4 - s.length) '0') ++ s

/-- Quorum block of the exported Caravan configuration. -/
structure Quorum where
  requiredSigners : Nat
  totalSigners : Nat
deriving DecidableEq, Repr

/-- One entry of `extendedPublicKeys` in the exported configuration. -/
structure ExtendedPublicKey where
  name : String
  xpub : String
  bip32Path : String
  xfp : String
  method : String
deriving DecidableEq, Repr

/-- Client block of the exported configuration. -/
structure ClientConfig where
  type : String
  url : String
  username : String
  password : String
  walletName : String
deriving DecidableEq, Repr

/-- The fixture document written by `saveCaravanConfig`
(interface `WalletConfig`, lines 8-30 of the source). -/
structure WalletConfig where
  name : String
  addressType : String
  network : String
  quorum : Quorum
  extendedPublicKeys : List ExtendedPublicKey
  client : ClientConfig
deriving DecidableEq, Repr

/-- Connection configuration of the generator (host/port/credentials,
field `config` of `WalletHealthGenerator`). -/
structure RpcConfig where
  host : String
  port : Nat
  username : String
  password : String
deriving DecidableEq, Repr

/-- Signer metadata threaded through the pipeline: the element shape of
the `signers` arrays (name, xpub, xfp, bip32Path). -/
structure SignerInfo where
  name : String
  xpub : String
  xfp : String
  bip32Path : String
deriving DecidableEq, Repr

/-- RPC-level events.  Each constructor records one request issued by the
source, with the payload needed by the claims.  For `createwallet`,
`loadwallet` and `unloadwallet` the `ok` flag records whether the node
accepted the request (an attempt is recorded either way). -/
inductive Ev where
  | getblockchaininfo
  | listwallets
  | createwallet (w : String) (watchOnly : Bool) (ok : Bool)
  | loadwallet (w : String) (ok : Bool)
  | unloadwallet (w : String) (ok : Bool)
  | getbalance
  | getnewaddress (a : Nat)
  | sendtoaddress (dest : Nat) (amount : ℚ)
  | generatetoaddress (nblocks : Nat) (dest : Nat)
  | importdescriptors (desc : String)
  | accessCheck (scenario : String) (present : Bool)
  | writeConfig (scenario : String) (cfg : WalletConfig)
  | runScenario (scenario : String)
deriving DecidableEq, Repr

/-- Payment events (`sendtoaddress` requests). -/
def Ev.isSend : Ev → Bool
  | .sendtoaddress _ _ => true
  | _ => false

/-- Block-confirmation events (`generatetoaddress` requests). -/
def Ev.isMine : Ev → Bool
  | .generatetoaddress _ _ => true
  | _ => false

/-- Fixture-document writes. -/
def Ev.isWrite : Ev → Bool
  | .writeConfig _ _ => true
  | _ => false

/-- Unload attempts. -/
def Ev.isUnload : Ev → Bool
  | .unloadwallet _ _ => true
  | _ => false

/-- The four scenario names (line 93 and lines 711-716 of the source). -/
def scenarioNames : List String :=
  ["bad_privacy", "bad_waste", "good_privacy", "good_waste"]

/-- The twelve per-scenario wallet names, in the exact order
`cleanupPreviousWallets` visits them (two signers then the watcher, per
scenario). -/
def scenarioWalletNames : List String :=
  (scenarioNames.map (fun sc =>
    [sc ++ "_signer_1", sc ++ "_signer_2", sc ++ "_watcher"])).flatten

/-
Pattern-generator machine.  The generators run against the coordinator
wallet; the gateway is an oracle `env : Ev → Bool` deciding whether each
request is accepted (`true`) or rejected with an error (`false`).  Fresh
addresses are a counter: the node returns address `fresh` and the next
request returns a different one.
-/

/-- Coordinator-side generator state: the next fresh address id. -/
structure GenState where
  fresh : Nat
deriving DecidableEq, Repr

/-- Model of `await wallet.command(<getnewaddress>)`: returns a fresh
address, or rejects if the gateway refuses the request. -/
def getnewaddressOp (env : Ev → Bool) (s : GenState) :
    Except Err (Nat × GenState × List Ev) :=
  if env (.getnewaddress s.fresh) then
    .ok (s.fresh, ⟨s.fresh + 1⟩, [.getnewaddress s.fresh])
  else .error gatewayErr

/-- Address-reuse loop of `createBadPrivacyPattern` (lines 462-465):
`n` sends of `amt` to the single address `dest`.  The source loop has no
try/catch, so a rejected send propagates. -/
def reuseSendLoop (env : Ev → Bool) (dest : Nat) (amt : ℚ) : Nat → Except Err (List Ev)
  | 0 => .ok []
  | n + 1 =>
    if env (.sendtoaddress dest amt) then
      match reuseSendLoop env dest amt n with
      | .ok t => .ok (.sendtoaddress dest amt :: t)
      | .error e => .error e
    else .error gatewayErr

/-- Round-amount loop of `createBadPrivacyPattern` (lines 469-474): for
each amount, request a fresh address and send that amount to it.  No
try/catch: a rejected request propagates. -/
def roundAmountLoop (env : Ev → Bool) : List ℚ → GenState → Except Err (GenState × List Ev)
  | [], s => .ok (s, [])
  | a :: rest, s =>
    match getnewaddressOp env s with
    | .error e => .error e
    | .ok (addr, s1, t1) =>
      if env (.sendtoaddress addr a) then
        match roundAmountLoop env rest s1 with
        | .ok (s2, t2) => .ok (s2, t1 ++ .sendtoaddress addr a :: t2)
        | .error e => .error e
      else .error gatewayErr

/-- Model of `createBadPrivacyPattern` (lines 453-481): one fresh address reused
for 8 sends of 0.5, then sends of 1.0, 2.0 and 5.0 each to its own fresh
address, then one `generatetoaddress 3` confirmation step.  The source
never reads the coordinator balance in this generator. -/
def createBadPrivacyPattern (env : Ev → Bool) (s : GenState) :
    Except Err (GenState × List Ev) :=
  match getnewaddressOp env s with
  | .error e => .error e
  | .ok (reused, s1, t1) =>
    match reuseSendLoop env reused (1/2) 8 with
    | .error e => .error e
    | .ok t2 =>
      match roundAmountLoop env [1, 2, 5] s1 with
      | .error e => .error e
      | .ok (s2, t3) =>
        match getnewaddressOp env s2 with
        | .error e => .error e
        | .ok (a, s3, t4) =>
          if env (.generatetoaddress 3 a) then
            .ok (s3, t1 ++ t2 ++ t3 ++ t4 ++ [.generatetoaddress 3 a])
          else .error gatewayErr

/-- Model of JavaScript `scenarioName.replace(<underscore>, <space>)`:
a string pattern replaces only the first occurrence. -/
def replaceFirstUnderscoreAux : List Char → List Char
  | [] => []
  | c :: cs => if c = '_' then ' ' :: cs else c :: replaceFirstUnderscoreAux cs

/-- String-level wrapper of `replaceFirstUnderscoreAux`. -/
def replaceFirstUnderscore (s : String) : String :=
  (replaceFirstUnderscoreAux s.toList).asString

/-- Model of `signer.name.replace(/_/g, <space>)`: every underscore. -/
def replaceUnderscores (s : String) : String :=
  s.map (fun c => if c = '_' then ' ' else c)

/-- The fixture document built by `saveCaravanConfig` (lines 634-667):
quorum hard-coded to 2-of-2, one `extendedPublicKeys` entry per signer,
client block pointing at the scenario's watcher wallet. -/
def saveCaravanConfig (rc : RpcConfig) (scenarioName : String)
    (signers : List SignerInfo) : WalletConfig :=
  { name := replaceFirstUnderscore scenarioName ++ " Multisig (2-of-2)"
    addressType := "P2WSH"
    network := "regtest"
    quorum := ⟨2, 2⟩
    extendedPublicKeys := signers.map (fun sg =>
      ⟨replaceUnderscores sg.name, sg.xpub, sg.bip32Path, sg.xfp, "text"⟩)
    client := ⟨"private", "http://" ++ rc.host ++ ":" ++ toString rc.port,
      rc.username, rc.password, scenarioName ++ "_watcher"⟩ }

/-- The bad-privacy scenario pattern followed by the fixture export,
i.e. the `createBadPrivacyPattern`/`saveCaravanConfig` suffix of
`generateBadPrivacyWallet` (lines 670-676).  The file write is one more
fallible request. -/
def badPrivacyScenario (rc : RpcConfig) (env : Ev → Bool)
    (signers : List SignerInfo) (s : GenState) : Except Err (GenState × List Ev) :=
  match createBadPrivacyPattern env s with
  | .error e => .error e
  | .ok (s1, t) =>
    let cfg := saveCaravanConfig rc "bad_privacy" signers
    if env (.writeConfig "bad_privacy" cfg) then
      .ok (s1, t ++ [.writeConfig "bad_privacy" cfg])
    else .error gatewayErr

/-- Fresh-address send loop shared by both branches of
`createGoodPrivacyPattern` (lines 536-546 and 550-563): each iteration
requests a fresh address (a rejection there propagates, it sits outside
the try) and then attempts one send inside a try/catch whose handler
logs and `break`s out of the loop.  `amts i` is the i-th pseudo-random
amount.  The trace records the attempted send even when it is
rejected. -/
def freshSendLoop (env : Ev → Bool) (amts : Nat → ℚ) :
    List Nat → GenState → Except Err (GenState × List Ev)
  | [], s => .ok (s, [])
  | i :: rest, s =>
    match getnewaddressOp env s with
    | .error e => .error e
    | .ok (addr, s1, t1) =>
      if env (.sendtoaddress addr (amts i)) then
        match freshSendLoop env amts rest s1 with
        | .ok (s2, t2) => .ok (s2, t1 ++ .sendtoaddress addr (amts i) :: t2)
        | .error e => .error e
      else .ok (s1, t1 ++ [.sendtoaddress addr (amts i)])

/-- Model of `createGoodPrivacyPattern` (lines 523-571): read the coordinator
balance; below 1 run the degraded loop over iteration indices 0..2,
otherwise the fresh-address loop over indices 0..7; finally request one
more address and issue a `generatetoaddress 2` confirmation step. -/
def createGoodPrivacyPattern (env : Ev → Bool) (amts : Nat → ℚ) (bal : ℚ)
    (s : GenState) : Except Err (GenState × List Ev) :=
  if env .getbalance then
    let loop := if bal < 1 then freshSendLoop env amts [0, 1, 2] s
                else freshSendLoop env amts [0, 1, 2, 3, 4, 5, 6, 7] s
    match loop with
    | .error e => .error e
    | .ok (s1, t) =>
      match getnewaddressOp env s1 with
      | .error e => .error e
      | .ok (a, s2, t1) =>
        if env (.generatetoaddress 2 a) then
          .ok (s2, Ev.getbalance :: t ++ t1 ++ [.generatetoaddress 2 a])
        else .error gatewayErr
  else .error gatewayErr

/-- Model of `Math.floor(x * 100) / 100` (line 427). -/
def jsFloor2 (q : ℚ) : ℚ := ((q * 100).floor : ℚ) / 100

/-- Reduced-funding loop of `fundMultisigAddresses` (lines 425-436): for
each address, send the rounded amount only when `amt > 0.02`; the send
sits in a try/catch whose handler `break`s, so a rejected send ends the
loop (the attempted send is recorded). -/
def reducedFundLoop (env : Ev → Bool) (amt : ℚ) : List Nat → List Ev
  | [] => []
  | a :: rest =>
    if amt > 1/50 then
      if env (.sendtoaddress a (jsFloor2 amt)) then
        .sendtoaddress a (jsFloor2 amt) :: reducedFundLoop env amt rest
      else [.sendtoaddress a (jsFloor2 amt)]
    else reducedFundLoop env amt rest

/-- Full-funding loop of `fundMultisigAddresses` (lines 439-442): send
2.0 to every address, no try/catch, a rejection propagates. -/
def fullFundLoop (env : Ev → Bool) : List Nat → Except Err (List Ev)
  | [] => .ok []
  | a :: rest =>
    if env (.sendtoaddress a 2) then
      match fullFundLoop env rest with
      | .ok t => .ok (.sendtoaddress a 2 :: t)
      | .error e => .error e
    else .error gatewayErr

/-- Model of `fundMultisigAddresses` (lines 407-450): read the coordinator
balance `bal`; below 0.1 skip funding entirely; below 8 run the reduced
loop with per-address amount `max 0.05 ((bal - 0.2) / addresses.length)`;
otherwise send 2.0 to every address; finally request one more address
and issue a `generatetoaddress 6` confirmation step. -/
def fundMultisigAddresses (env : Ev → Bool) (addresses : List Nat) (bal : ℚ)
    (s : GenState) : Except Err (GenState × List Ev) :=
  if env .getbalance then
    if bal < 1/10 then .ok (s, [.getbalance])
    else
      let core : Except Err (List Ev) :=
        if bal < 8 then
          .ok (reducedFundLoop env (max (1/20) ((bal - 1/5) / addresses.length)) addresses)
        else fullFundLoop env addresses
      match core with
      | .error e => .error e
      | .ok t =>
        match getnewaddressOp env s with
        | .error e => .error e
        | .ok (a, s1, t1) =>
          if env (.generatetoaddress 6 a) then
            .ok (s1, Ev.getbalance :: t ++ t1 ++ [.generatetoaddress 6 a])
          else .error gatewayErr
  else .error gatewayErr

/-
Key extraction (`extractWalletKeys`, lines 272-305).  The primary path
lists the wallet's descriptors and parses
`[<8-hex-fingerprint>/<path>]<xpub>` out of the p2pkh receiving
descriptor; we abstract that whole fallible probe as one oracle value
`descRes`: `.ok (some k)` is a successful parse with result `k`,
`.ok none` is "no descriptor matched / regex failed", `.error` is an
RPC failure (caught and logged by the source).  Every outcome other than
a successful parse falls through to the fallback block (lines 298-304).
-/

/-- Result record of `extractWalletKeys`. -/
structure ExtractedKeys where
  xpub : String
  xfp : String
  bip32Path : String
deriving DecidableEq, Repr

/-- Fallback master fingerprint (line 299):
`(index+1).toString().padStart(4,'0')` twice. -/
def fallbackXfp (index : Nat) : String :=
  padStart4 (toString (index + 1)) ++ padStart4 (toString (index + 1))

/-- Fallback xpub (line 300): a fixed marker prefix followed by the
`Math.random().toString(36).substring(2, 50)` suffix, which we model as
an arbitrary string drawn by the random source. -/
def fallbackXpub (rand : String) : String :=
  "tpub661MyMwAqRbcF" ++ rand

/-- Fallback derivation path (line 301). -/
def fallbackPath : String := "m/84\x27/1\x27/0\x27"

/-- Does `descRes` make `extractWalletKeys` take its fallback block? -/
def fallbackTaken : Except Err (Option ExtractedKeys) → Bool
  | .ok (some _) => false
  | _ => true

/-- Model of `extractWalletKeys` (lines 272-305): return the parsed keys when the
descriptor probe succeeds, otherwise the fallback triple built from the
signer index and the random draw. -/
def extractWalletKeys (descRes : Except Err (Option ExtractedKeys))
    (rand : String) (index : Nat) : ExtractedKeys :=
  match descRes with
  | .ok (some k) => k
  | _ => ⟨fallbackXpub rand, fallbackXfp index, fallbackPath⟩

/-- The claim's reading of the fallback fingerprint: `n` rendered as a
4-digit zero-padded decimal string, repeated twice. -/
def specZeroPad4Twice (n : Nat) : String :=
  padStart4 (toString n) ++ padStart4 (toString n)

/-
Multisig descriptor construction (`importMultisigDescriptor`,
lines 377-405).  JavaScript `Array.prototype.sort()` with no comparator
sorts strings lexicographically by code unit; `jsStrLe` below is that
comparison (code-point order, which agrees with code-unit order on the
basic-multilingual-plane strings xpubs are).  `sort()` is modelled by
`List.insertionSort` over it — the order is total and antisymmetric, so
every correct sort of the same multiset yields the same list.
-/

/-- Lexicographic code-point comparison on character lists. -/
def charListLe : List Char → List Char → Bool
  | [], _ => true
  | _ :: _, [] => false
  | a :: as, b :: bs =>
    if a < b then true
    else if b < a then false
    else charListLe as bs

/-- JavaScript default string comparison used by `Array.sort()`. -/
def jsStrLe (a b : String) : Bool := charListLe a.toList b.toList

/-- Propositional form of `jsStrLe`, for `List.insertionSort`. -/
def jsLeProp (a b : String) : Prop := jsStrLe a b = true

instance : DecidableRel jsLeProp := fun _ _ => inferInstanceAs (Decidable (_ = true))

theorem charListLe_total : ∀ as bs : List Char,
    charListLe as bs = true ∨ charListLe bs as = true
  | [], _ => Or.inl rfl
  | _ :: _, [] => Or.inr rfl
  | a :: as, b :: bs => by
    rcases lt_trichotomy a b with h | h | h
    · exact Or.inl (by simp [charListLe, h])
    · subst h
      rcases charListLe_total as bs with h2 | h2
      · exact Or.inl (by simp [charListLe, h2])
      · exact Or.inr (by simp [charListLe, h2])
    · exact Or.inr (by simp [charListLe, h])

theorem charListLe_trans : ∀ {as bs cs : List Char}, charListLe as bs = true →
    charListLe bs cs = true → charListLe as cs = true
  | [], _, _, _, _ => rfl
  | _ :: _, [], _, h1, _ => by simp [charListLe] at h1
  | _ :: _, _ :: _, [], _, h2 => by simp [charListLe] at h2
  | a :: as, b :: bs, c :: cs, h1, h2 => by
    rcases lt_trichotomy a b with hab | hab | hab
    · rcases lt_trichotomy b c with hbc | hbc | hbc
      · simp [charListLe, lt_trans hab hbc]
      · subst hbc; simp [charListLe, hab]
      · exfalso
        simp [charListLe, hbc, asymm hbc] at h2
    · subst hab
      rcases lt_trichotomy a c with hac | hac | hac
      · simp [charListLe, hac]
      · subst hac
        simp [charListLe, lt_irrefl] at h1 h2 ⊢
        exact charListLe_trans h1 h2
      · exfalso
        simp [charListLe, hac, asymm hac] at h2
    · exfalso
      simp [charListLe, hab, asymm hab] at h1

theorem charListLe_antisymm : ∀ {as bs : List Char}, charListLe as bs = true →
    charListLe bs as = true → as = bs
  | [], [], _, _ => rfl
  | _ :: _, [], h1, _ => by simp [charListLe] at h1
  | [], _ :: _, _, h2 => by simp [charListLe] at h2
  | a :: as, b :: bs, h1, h2 => by
    rcases lt_trichotomy a b with hab | hab | hab
    · exfalso; simp [charListLe, hab, asymm hab] at h2
    · subst hab
      simp [charListLe, lt_irrefl] at h1 h2
      exact congrArg (a :: ·) (charListLe_antisymm h1 h2)
    · exfalso; simp [charListLe, hab, asymm hab] at h1

instance : IsTotal String jsLeProp :=
  ⟨fun a b => charListLe_total a.toList b.toList⟩

instance : IsTrans String jsLeProp :=
  ⟨fun _ _ _ h1 h2 => charListLe_trans h1 h2⟩

instance : IsAntisymm String jsLeProp :=
  ⟨fun _ _ h1 h2 => String.toList_inj.mp (charListLe_antisymm h1 h2)⟩

/-- Sorted signer xpubs (line 385). -/
def sortedXpubs (signers : List SignerInfo) : List String :=
  List.insertionSort jsLeProp (signers.map (·.xpub))

/-- The imported watcher descriptor string (line 388). -/
def multisigDescriptor (signers : List SignerInfo) : String :=
  "wsh(sortedmulti(2," ++
    String.intercalate "," ((sortedXpubs signers).map (fun x => x ++ "/0/*")) ++ "))"

/-
Wallet-ensure step.  The same listwallets/loadwallet/createwallet block
appears verbatim in `createSignerWallets` (lines 168-192, `watchOnly =
false`) and `createWatcherWallet` (lines 337-361, `watchOnly = true`):
if the wallet is among the loaded ones, nothing more is issued; else try
`loadwallet`; if that rejects with code -18 issue `createwallet`; any
other load failure is rethrown by the outer catch (which only logs).
The three gateway outcomes are explicit oracle values.
-/

/-- The wallet-ensure block shared by signer and watcher setup.
`listRes`, `loadRes`, `createRes` are the gateway's responses to
`listwallets`, `loadwallet name` and `createwallet name ...`. -/
def ensureWalletStep (listRes : Except Err (List String))
    (loadRes createRes : Except Err Unit) (name : String) (watchOnly : Bool) :
    Except Err (List Ev) :=
  match listRes with
  | .error e => .error e
  | .ok ws =>
    if name ∈ ws then .ok [.listwallets]
    else
      match loadRes with
      | .ok _ => .ok [.listwallets, .loadwallet name true]
      | .error e =>
        if e.code = -18 then
          match createRes with
          | .ok _ => .ok [.listwallets, .loadwallet name false,
              .createwallet name watchOnly true]
          | .error e2 => .error e2
        else .error e

/-
Funding convergence (`fundWallet`, lines 212-270).  Each RPC the
function issues gets its own oracle slot, in program order: the initial
balance read, the fresh-address request, the 50-block mining request,
the post-mining balance read, then — only inside the try/catch fallback
block — the miner-wallet steps, and finally the last balance read.
-/

/-- Gateway responses for one `fundWallet` run, in program order. -/
structure FundEnv where
  bal1 : Except Err ℚ
  addr : Except Err Nat
  mine50 : Except Err Unit
  bal2 : Except Err ℚ
  minerList : Except Err (List String)
  minerCreate : Except Err Unit
  minerLoad : Except Err Unit
  minerBal : Except Err ℚ
  minerSend : Except Err Unit
  mine1 : Except Err Unit
  bal3 : Except Err ℚ

/-- Model of `ensureMinerWallet` (lines 76-88): list wallets and create `miner`
if missing; the catch handler loads `miner` when the error message
contains "already exists" (that load's own failure propagates) and
swallows every other error. -/
def ensureMinerWallet (env : FundEnv) : Except Err (List Ev) :=
  let body : Except Err (List Ev) :=
    match env.minerList with
    | .error e => .error e
    | .ok ws =>
      if "miner" ∈ ws then .ok [.listwallets]
      else
        match env.minerCreate with
        | .ok _ => .ok [.listwallets, .createwallet "miner" false true]
        | .error e => .error e
  match body with
  | .ok t => .ok t
  | .error e =>
    if msgIncludes "already exists" e.msg then
      match env.minerLoad with
      | .ok _ => .ok [.loadwallet "miner" true]
      | .error e2 => .error e2
    else .ok []

/-- Miner-transfer fallback of `fundWallet` (lines 236-258), the body of
its try/catch: ensure the miner wallet, read its balance, and when that
balance exceeds 10 send 5 to the target address and confirm with one
block.  The address `a` is the target wallet's funding address. -/
def minerTransferBody (env : FundEnv) (a : Nat) : Except Err (List Ev) :=
  match ensureMinerWallet env with
  | .error e => .error e
  | .ok t =>
    match env.minerBal with
    | .error e => .error e
    | .ok mb =>
      if mb > 10 then
        match env.minerSend with
        | .error e => .error e
        | .ok _ =>
          match env.mine1 with
          | .error e => .error e
          | .ok _ =>
            .ok (t ++ [.getbalance, .sendtoaddress a 5, .generatetoaddress 1 a])
      else .ok (t ++ [.getbalance])

/-- Model of `fundWallet` (lines 212-270): short-circuit when the first balance
read is strictly above 5; otherwise request an address, mine 50 blocks
to it, re-read the balance, run the miner-transfer fallback when that
read is below 1 (all its failures are caught and only logged), and read
the balance one final time.  The trailing low-balance check only logs a
warning. -/
def fundWallet (env : FundEnv) : Except Err (List Ev) :=
  match env.bal1 with
  | .error e => .error e
  | .ok b1 =>
    if b1 > 5 then .ok [.getbalance]
    else
      match env.addr with
      | .error e => .error e
      | .ok a =>
        match env.mine50 with
        | .error e => .error e
        | .ok _ =>
          match env.bal2 with
          | .error e => .error e
          | .ok b2 =>
            let minerPart : List Ev :=
              if b2 < 1 then
                match minerTransferBody env a with
                | .ok t => t
                | .error _ => []
              else []
            match env.bal3 with
            | .error e => .error e
            | .ok _ =>
              .ok ([.getbalance, .getnewaddress a, .generatetoaddress 50 a,
                .getbalance] ++ minerPart ++ [.getbalance])

/-
Orchestration (`generateAllWallets`, lines 704-736, with
`setupBitcoinEnvironment`, `setupInitialState`, `ensureMinerWallet` and
`cleanupPreviousWallets`).  At this level we model the node itself
deterministically: a wallet loads iff it exists on disk and is not
already loaded, creation fails with an "already exists" message iff the
wallet already exists, unloading succeeds iff the wallet is loaded, and
every address handed out belongs to the miner wallet (the only wallet
the orchestration layer itself draws addresses from).  Fixture-file
existence is a separate read-only set `fix` of scenario names: the
per-scenario generator chain runs only when a scenario's fixture is
absent and is abstracted as the single marker event `runScenario`,
which the mutation classifier below counts as scenario-wallet-mutating
(the real chain creates, loads, funds and spends scenario wallets).
All statements about this model restrict to states in which every
fixture exists, where that branch is dead code.
-/

/-- Node state seen by the orchestration layer. -/
structure NodeState where
  blocks : Nat
  fresh : Nat
  loaded : List String
  onDisk : List String
deriving DecidableEq, Repr

/-- Deterministic `createwallet`: fails with an "already exists" message
when the wallet already exists (on disk or loaded). -/
def createwalletN (w : String) (st : NodeState) : Except Err Unit × NodeState × Ev :=
  if w ∈ st.onDisk ∨ w ∈ st.loaded then
    (.error ⟨-4, "Wallet already exists"⟩, st, .createwallet w false false)
  else
    (.ok (), { st with onDisk := w :: st.onDisk, loaded := w :: st.loaded },
      .createwallet w false true)

/-- Deterministic `loadwallet`: code -35 when already loaded, -18 when
not on disk. -/
def loadwalletN (w : String) (st : NodeState) : Except Err Unit × NodeState × Ev :=
  if w ∈ st.loaded then (.error ⟨-35, "already loaded"⟩, st, .loadwallet w false)
  else if w ∈ st.onDisk then
    (.ok (), { st with loaded := w :: st.loaded }, .loadwallet w true)
  else (.error ⟨-18, "Wallet not found"⟩, st, .loadwallet w false)

/-- Deterministic `unloadwallet`: succeeds iff the wallet is loaded. -/
def unloadwalletN (w : String) (st : NodeState) : NodeState × Ev :=
  if w ∈ st.loaded then
    ({ st with loaded := st.loaded.erase w }, .unloadwallet w true)
  else (st, .unloadwallet w false)

/-- Deterministic `getnewaddress` against wallet `w`: succeeds iff `w`
is loaded, returning the next fresh address. -/
def getnewaddressN (w : String) (st : NodeState) : Except Err (Nat × NodeState × Ev) :=
  if w ∈ st.loaded then
    .ok (st.fresh, { st with fresh := st.fresh + 1 }, .getnewaddress st.fresh)
  else .error ⟨-18, "Requested wallet does not exist or is not loaded"⟩

/-- Model of `setupInitialState` (lines 116-138): create the miner wallet (a
failure whose message lacks "already exists" triggers a `loadwallet`
whose own failure propagates), then mine 101 blocks to a fresh miner
address. -/
def setupInitialState (st : NodeState) : Except Err (NodeState × List Ev) :=
  let afterCreate : Except Err (NodeState × List Ev) :=
    match createwalletN "miner" st with
    | (.ok _, st1, e1) => .ok (st1, [e1])
    | (.error err, st1, e1) =>
      if msgIncludes "already exists" err.msg then .ok (st1, [e1])
      else
        match loadwalletN "miner" st1 with
        | (.ok _, st2, e2) => .ok (st2, [e1, e2])
        | (.error e, _, _) => .error e
  match afterCreate with
  | .error e => .error e
  | .ok (st2, t) =>
    match getnewaddressN "miner" st2 with
    | .error e => .error e
    | .ok (a, st3, e3) =>
      .ok ({ st3 with blocks := st3.blocks + 101 },
        t ++ [e3, .generatetoaddress 101 a])

/-- Model of `ensureMinerWallet` under the deterministic node semantics (lines
76-88): list wallets, create `miner` when missing; the catch handler
loads `miner` on an "already exists" message (that load's failure
propagates) and swallows everything else. -/
def ensureMinerWalletN (st : NodeState) : Except Err (NodeState × List Ev) :=
  if "miner" ∈ st.loaded then .ok (st, [.listwallets])
  else
    match createwalletN "miner" st with
    | (.ok _, st1, e1) => .ok (st1, [.listwallets, e1])
    | (.error err, st1, e1) =>
      if msgIncludes "already exists" err.msg then
        match loadwalletN "miner" st1 with
        | (.ok _, st2, e2) => .ok (st2, [.listwallets, e1, e2])
        | (.error e, _, _) => .error e
      else .ok (st1, [.listwallets, e1])

/-- Model of `setupBitcoinEnvironment` (lines 53-74): query the chain tip; below
101 blocks run `setupInitialState`, otherwise `ensureMinerWalletN`; the
catch-all handler converts any failure into the connectivity error. -/
def setupBitcoinEnvironment (st : NodeState) : Except Err (NodeState × List Ev) :=
  let body : Except Err (NodeState × List Ev) :=
    if st.blocks < 101 then
      match setupInitialState st with
      | .ok (st1, t) => .ok (st1, .getblockchaininfo :: t)
      | .error e => .error e
    else
      match ensureMinerWalletN st with
      | .ok (st1, t) => .ok (st1, .getblockchaininfo :: t)
      | .error e => .error e
  match body with
  | .ok r => .ok r
  | .error _ => .error connErr

/-- Unload every wallet in the list in order, ignoring failures
(the source's per-wallet try/catch with an empty handler). -/
def unloadAll : List String → NodeState → NodeState × List Ev
  | [], st => (st, [])
  | w :: ws, st =>
    ((unloadAll ws (unloadwalletN w st).1).1,
      (unloadwalletN w st).2 :: (unloadAll ws (unloadwalletN w st).1).2)

/-- Model of `cleanupPreviousWallets` (lines 90-114): unconditionally attempt to
unload the two signers and the watcher of every scenario. -/
def cleanupPreviousWallets (st : NodeState) : NodeState × List Ev :=
  unloadAll scenarioWalletNames st

/-- Per-scenario fixture check of `generateAllWallets` (lines 718-728):
when the scenario's fixture file exists, only the access check happens;
otherwise the generator chain runs (abstracted as `runScenario`). -/
def scenarioChecks (fix : List String) : List String → List Ev
  | [] => []
  | sc :: rest =>
    if sc ∈ fix then .accessCheck sc true :: scenarioChecks fix rest
    else .accessCheck sc false :: .runScenario sc :: scenarioChecks fix rest

/-- Model of `generateAllWallets` (lines 704-736): environment setup, then the
unconditional wallet cleanup, then the per-scenario fixture checks. -/
def generateAllWalletsRun (fix : List String) (st : NodeState) :
    Except Err (NodeState × List Ev) :=
  match setupBitcoinEnvironment st with
  | .error e => .error e
  | .ok (st1, t1) =>
    .ok ((cleanupPreviousWallets st1).1,
      t1 ++ (cleanupPreviousWallets st1).2 ++ scenarioChecks fix scenarioNames)

/-- Does this event mutate a scenario wallet (create, load, unload, fund
or spend)?  Successful create/load/unload of one of the twelve scenario
wallet names counts; so does the abstracted generator chain.  Orchestration
`sendtoaddress`/`generatetoaddress` events target miner-wallet addresses
only (the orchestration layer draws addresses from the miner wallet
alone), so they never mutate a scenario wallet. -/
def Ev.mutatesScenarioWallet : Ev → Bool
  | .createwallet w _ ok => ok && scenarioWalletNames.contains w
  | .loadwallet w ok => ok && scenarioWalletNames.contains w
  | .unloadwallet w ok => ok && scenarioWalletNames.contains w
  | .runScenario _ => true
  | _ => false

/-- Scenario-wallet-mutating events of an orchestration run. -/
def runMutations (r : Except Err (NodeState × List Ev)) : List Ev :=
  match r with
  | .ok (_, t) => t.filter Ev.mutatesScenarioWallet
  | .error _ => []

/-- Every scenario's fixture document exists. -/
def allFixturesPresent (fix : List String) : Prop :=
  ∀ sc ∈ scenarioNames, sc ∈ fix

/-- Trace of a successful generator run (empty on failure). -/
def resultTrace : Except Err (GenState × List Ev) → List Ev
  | .ok (_, t) => t
  | .error _ => []

/-- Number of `sendtoaddress` requests recorded by a generator run. -/
def resultSendCount (r : Except Err (GenState × List Ev)) : Nat :=
  (resultTrace r).countP Ev.isSend

/-- Did the computation return normally (no raised error)? -/
def resultOk {α : Type} : Except Err α → Bool
  | .ok _ => true
  | .error _ => false

/-- Gateway behaviour with every request succeeding, balance exactly 5
on the first read and 50 thereafter (so the miner fallback is not
entered). -/
def atThresholdEnv : FundEnv :=
  { bal1 := .ok 5, addr := .ok 7, mine50 := .ok (), bal2 := .ok 50,
    minerList := .ok ["miner"], minerCreate := .ok (), minerLoad := .ok (),
    minerBal := .ok 0, minerSend := .ok (), mine1 := .ok (), bal3 := .ok 50 }

/-- Gateway behaviour with first balance 6. -/
def aboveThresholdEnv : FundEnv :=
  { bal1 := .ok 6, addr := .ok 7, mine50 := .ok (), bal2 := .ok 50,
    minerList := .ok ["miner"], minerCreate := .ok (), minerLoad := .ok (),
    minerBal := .ok 0, minerSend := .ok (), mine1 := .ok (), bal3 := .ok 50 }

/-- Gateway behaviour in which the very first balance query is
rejected (node still warming up) while everything else would succeed. -/
def balanceProbeDownEnv : FundEnv :=
  { bal1 := .error ⟨-28, "Loading block index"⟩, addr := .ok 3,
    mine50 := .ok (), bal2 := .ok 0, minerList := .ok ["miner"],
    minerCreate := .ok (), minerLoad := .ok (), minerBal := .ok 50,
    minerSend := .ok (), mine1 := .ok (), bal3 := .ok 0 }

/-- Gateway behaviour with zero balances and every miner-fallback
request rejected: the fallback is entered and every one of its failures
is absorbed. -/
def minerDownEnv : FundEnv :=
  { bal1 := .ok 0, addr := .ok 3, mine50 := .ok (), bal2 := .ok 0,
    minerList := .error ⟨-9, "connection refused"⟩,
    minerCreate := .error ⟨-9, "connection refused"⟩,
    minerLoad := .error ⟨-9, "connection refused"⟩,
    minerBal := .error ⟨-9, "connection refused"⟩,
    minerSend := .error ⟨-9, "connection refused"⟩,
    mine1 := .error ⟨-9, "connection refused"⟩, bal3 := .ok 0 }

/-- Gateway that rejects exactly the send to address 11 and accepts
every other request. -/
def rejectAddr11 : Ev → Bool
  | .sendtoaddress d _ => d != 11
  | _ => true

/-- Node state after a completed first run: plenty of blocks, the miner
wallet and one scenario signer wallet on disk and still loaded (the
source never unloads the wallets it loads or creates). -/
def c1State : NodeState :=
  { blocks := 200, fresh := 0,
    loaded := ["miner", "bad_privacy_signer_1"],
    onDisk := ["miner", "bad_privacy_signer_1"] }

/-
Claim theorems.
-/

/-- C2: with the coordinator balance at least 5 and a gateway that
accepts every request, the bad-privacy pattern plus export emits exactly
8 payments of 0.5 to one single (freshly requested, then reused)
address, then payments of 1.0, 2.0 and 5.0 to three pairwise-distinct
fresh addresses (all distinct from the reused one), then exactly one
block-confirmation step, then exactly one written fixture document with
exactly 2 signer entries and quorum 2-of-2.  (The generator never reads
the balance, so the bound is vacuously carried; a rejected send would
propagate, which is why the accepting gateway is assumed.) -/
theorem badPrivacy_scenario_literal (rc : RpcConfig) (env : Ev → Bool)
    (hE : ∀ ev, env ev = true) (bal : ℚ) (_hb : 5 ≤ bal)
    (sg1 sg2 : SignerInfo) (s : GenState) :
    ∃ s2 tr, badPrivacyScenario rc env [sg1, sg2] s = .ok (s2, tr)
      ∧ tr.filter Ev.isSend
          = List.replicate 8 (.sendtoaddress s.fresh (1/2))
            ++ [.sendtoaddress (s.fresh + 1) 1, .sendtoaddress (s.fresh + 2) 2,
                .sendtoaddress (s.fresh + 3) 5]
      ∧ (s.fresh + 1 ≠ s.fresh + 2 ∧ s.fresh + 1 ≠ s.fresh + 3
          ∧ s.fresh + 2 ≠ s.fresh + 3)
      ∧ (s.fresh ≠ s.fresh + 1 ∧ s.fresh ≠ s.fresh + 2 ∧ s.fresh ≠ s.fresh + 3)
      ∧ tr.countP Ev.isMine = 1
      ∧ tr.filter Ev.isWrite
          = [.writeConfig "bad_privacy" (saveCaravanConfig rc "bad_privacy" [sg1, sg2])]
      ∧ (saveCaravanConfig rc "bad_privacy" [sg1, sg2]).extendedPublicKeys.length = 2
      ∧ (saveCaravanConfig rc "bad_privacy" [sg1, sg2]).quorum = ⟨2, 2⟩ := by
  have henv : env = fun _ => true := funext hE
  subst henv
  exact ⟨_, _, rfl, rfl, ⟨by omega, by omega, by omega⟩,
    ⟨by omega, by omega, by omega⟩, rfl, rfl, rfl, rfl⟩

/-- Witness for C2 at a concrete configuration, balance exactly 5,
two concrete signers and initial address counter 0. -/
theorem badPrivacy_scenario_literal_witness :
    ∃ s2 tr, badPrivacyScenario ⟨"localhost", 18443, "rpcuser", "rpcpass"⟩
        (fun _ => true)
        [⟨"bad_privacy_signer_1", "xpubA", "fa", "pa"⟩,
         ⟨"bad_privacy_signer_2", "xpubB", "fb", "pb"⟩] ⟨0⟩ = .ok (s2, tr)
      ∧ tr.filter Ev.isSend
          = List.replicate 8 (.sendtoaddress 0 (1/2))
            ++ [.sendtoaddress (0 + 1) 1, .sendtoaddress (0 + 2) 2,
                .sendtoaddress (0 + 3) 5]
      ∧ ((0 : Nat) + 1 ≠ 0 + 2 ∧ (0 : Nat) + 1 ≠ 0 + 3 ∧ (0 : Nat) + 2 ≠ 0 + 3)
      ∧ ((0 : Nat) ≠ 0 + 1 ∧ (0 : Nat) ≠ 0 + 2 ∧ (0 : Nat) ≠ 0 + 3)
      ∧ tr.countP Ev.isMine = 1
      ∧ tr.filter Ev.isWrite
          = [.writeConfig "bad_privacy" (saveCaravanConfig
              ⟨"localhost", 18443, "rpcuser", "rpcpass"⟩ "bad_privacy"
              [⟨"bad_privacy_signer_1", "xpubA", "fa", "pa"⟩,
               ⟨"bad_privacy_signer_2", "xpubB", "fb", "pb"⟩])]
      ∧ (saveCaravanConfig ⟨"localhost", 18443, "rpcuser", "rpcpass"⟩ "bad_privacy"
          [⟨"bad_privacy_signer_1", "xpubA", "fa", "pa"⟩,
           ⟨"bad_privacy_signer_2", "xpubB", "fb", "pb"⟩]).extendedPublicKeys.length = 2
      ∧ (saveCaravanConfig ⟨"localhost", 18443, "rpcuser", "rpcpass"⟩ "bad_privacy"
          [⟨"bad_privacy_signer_1", "xpubA", "fa", "pa"⟩,
           ⟨"bad_privacy_signer_2", "xpubB", "fb", "pb"⟩]).quorum = ⟨2, 2⟩ :=
  badPrivacy_scenario_literal _ _ (fun _ => rfl) 5 le_rfl _ _ ⟨0⟩

/-- C4 counterexample: the fallback xpub embeds the random draw
(`Math.random().toString(36)...`), so two fallback invocations with the
same signerIndex 0 but different random draws return different key
records — the fallback is not a function of the signer index alone. -/
theorem extract_fallback_not_deterministic :
    extractWalletKeys (Except.error gatewayErr) "aa" 0
      ≠ extractWalletKeys (Except.error gatewayErr) "bb" 0 := by decide

/-- Prefixing with the fixed marker string is injective. -/
theorem fallbackXpub_inj (r1 r2 : String) :
    fallbackXpub r1 = fallbackXpub r2 ↔ r1 = r2 := by
  unfold fallbackXpub
  constructor
  · intro h
    have hd : "tpub661MyMwAqRbcF".toList ++ r1.toList
        = "tpub661MyMwAqRbcF".toList ++ r2.toList := by
      have := congrArg String.toList h
      simpa using this
    exact String.toList_inj.mp (List.append_cancel_left hd)
  · intro h; rw [h]

/-- C4 (amended): whenever key extraction falls back, the fallback
fingerprint and derivation path are deterministic functions of the
signer index alone (identical across any two fallback invocations with
the same index), while the fallback xpub varies: two invocations agree
on it exactly when the random draws agree. -/
theorem extract_fallback_deterministic_parts
    (d1 d2 : Except Err (Option ExtractedKeys)) (r1 r2 : String) (index : Nat)
    (h1 : fallbackTaken d1 = true) (h2 : fallbackTaken d2 = true) :
    (extractWalletKeys d1 r1 index).xfp = (extractWalletKeys d2 r2 index).xfp
    ∧ (extractWalletKeys d1 r1 index).bip32Path
        = (extractWalletKeys d2 r2 index).bip32Path
    ∧ ((extractWalletKeys d1 r1 index).xpub = (extractWalletKeys d2 r2 index).xpub
        ↔ r1 = r2) := by
  have e1 : extractWalletKeys d1 r1 index
      = ⟨fallbackXpub r1, fallbackXfp index, fallbackPath⟩ := by
    cases d1 with
    | error e => rfl
    | ok o =>
      cases o with
      | none => rfl
      | some k => simp [fallbackTaken] at h1
  have e2 : extractWalletKeys d2 r2 index
      = ⟨fallbackXpub r2, fallbackXfp index, fallbackPath⟩ := by
    cases d2 with
    | error e => rfl
    | ok o =>
      cases o with
      | none => rfl
      | some k => simp [fallbackTaken] at h2
  rw [e1, e2]
  exact ⟨rfl, rfl, fallbackXpub_inj r1 r2⟩

/-- Witness for C4 (amended) at index 1 with two distinct draws, one of
them after an RPC failure and one after a failed regex parse. -/
theorem extract_fallback_deterministic_parts_witness :
    (extractWalletKeys (Except.error gatewayErr) "aa" 1).xfp
        = (extractWalletKeys (Except.ok none) "bb" 1).xfp
    ∧ (extractWalletKeys (Except.error gatewayErr) "aa" 1).bip32Path
        = (extractWalletKeys (Except.ok none) "bb" 1).bip32Path
    ∧ ((extractWalletKeys (Except.error gatewayErr) "aa" 1).xpub
        = (extractWalletKeys (Except.ok none) "bb" 1).xpub ↔ "aa" = "bb") :=
  extract_fallback_deterministic_parts (Except.error gatewayErr) (Except.ok none)
    "aa" "bb" 1 rfl rfl

/-- C5 counterexample: at signerIndex 0 the code's fallback fingerprint
is "00010001" (built from index + 1), not the claimed rendering
"00000000" of the signerIndex itself. -/
theorem extract_fallback_xfp_mismatch :
    (extractWalletKeys (Except.error gatewayErr) "r" 0).xfp = "00010001"
    ∧ specZeroPad4Twice 0 = "00000000"
    ∧ (extractWalletKeys (Except.error gatewayErr) "r" 0).xfp ≠ specZeroPad4Twice 0 := by
  refine ⟨by decide, by decide, by decide⟩

/-- C5 (amended): whenever key extraction falls back, the fallback
fingerprint equals the 4-digit zero-padded decimal rendering of
(signerIndex + 1), repeated twice; at the two indices the signer loop
actually uses (0 and 1) it is the 8-character strings "00010001" and
"00020002". -/
theorem extract_fallback_xfp_formula (descRes : Except Err (Option ExtractedKeys))
    (rand : String) (index : Nat) (h : fallbackTaken descRes = true) :
    (extractWalletKeys descRes rand index).xfp = specZeroPad4Twice (index + 1)
    ∧ (extractWalletKeys (Except.error gatewayErr) rand 0).xfp = "00010001"
    ∧ (extractWalletKeys (Except.error gatewayErr) rand 1).xfp = "00020002"
    ∧ "00010001".length = 8 ∧ "00020002".length = 8 := by
  refine ⟨?_, rfl, rfl, by decide, by decide⟩
  cases descRes with
  | error e => rfl
  | ok o =>
    cases o with
    | none => rfl
    | some k => simp [fallbackTaken] at h

/-- Witness for C5 (amended) at signerIndex 0 after an RPC failure. -/
theorem extract_fallback_xfp_formula_witness :
    (extractWalletKeys (Except.error gatewayErr) "r" 0).xfp = specZeroPad4Twice (0 + 1)
    ∧ (extractWalletKeys (Except.error gatewayErr) "r" 0).xfp = "00010001"
    ∧ (extractWalletKeys (Except.error gatewayErr) "r" 1).xfp = "00020002"
    ∧ "00010001".length = 8 ∧ "00020002".length = 8 :=
  extract_fallback_xfp_formula (Except.error gatewayErr) "r" 0 rfl

/-- C6: the watcher's imported threshold descriptor references the
signer xpubs in lexicographic sorted order regardless of supply order:
for input xpubs [B, A] the descriptor string lists A before B, and any
two signer lists carrying the same multiset of xpubs produce the
identical descriptor string. -/
theorem descriptor_sorted_xpubs :
    multisigDescriptor [⟨"s1", "tpubB", "f1", "p1"⟩, ⟨"s2", "tpubA", "f2", "p2"⟩]
        = "wsh(sortedmulti(2,tpubA/0/*,tpubB/0/*))"
    ∧ ∀ l1 l2 : List SignerInfo,
        (l1.map SignerInfo.xpub).Perm (l2.map SignerInfo.xpub) →
        multisigDescriptor l1 = multisigDescriptor l2 := by
  constructor
  · decide
  · intro l1 l2 hp
    have hs : sortedXpubs l1 = sortedXpubs l2 :=
      List.eq_of_perm_of_sorted
        (((List.perm_insertionSort _ _).trans hp).trans
          (List.perm_insertionSort _ _).symm)
        (List.sorted_insertionSort _ _) (List.sorted_insertionSort _ _)
    unfold multisigDescriptor
    rw [hs]

/-- Witness for C6: swapping the two signers leaves the descriptor
string unchanged. -/
theorem descriptor_sorted_xpubs_witness :
    multisigDescriptor [⟨"s1", "tpubB", "f1", "p1"⟩, ⟨"s2", "tpubA", "f2", "p2"⟩]
      = multisigDescriptor [⟨"s2", "tpubA", "f2", "p2"⟩, ⟨"s1", "tpubB", "f1", "p1"⟩] :=
  descriptor_sorted_xpubs.2 _ _ (by decide)

/-- C7: the wallet-ensure block creates a wallet only when the load
attempt fails with gateway code -18; a load failure with any other code
propagates to the caller unchanged; and when the wallet is already
among the loaded ones the only request issued is the `listwallets`
query — no load and no create. -/
theorem ensureWallet_branch_semantics :
    (∀ (ws : List String) (loadRes createRes : Except Err Unit)
        (name : String) (watchOnly : Bool), name ∈ ws →
        ensureWalletStep (Except.ok ws) loadRes createRes name watchOnly
          = .ok [.listwallets])
    ∧ (∀ (ws : List String) (e : Err) (name : String) (watchOnly : Bool),
        name ∉ ws → e.code = -18 →
        ensureWalletStep (Except.ok ws) (Except.error e) (Except.ok ()) name watchOnly
          = .ok [.listwallets, .loadwallet name false,
              .createwallet name watchOnly true])
    ∧ (∀ (ws : List String) (e : Err) (createRes : Except Err Unit)
        (name : String) (watchOnly : Bool), name ∉ ws → e.code ≠ -18 →
        ensureWalletStep (Except.ok ws) (Except.error e) createRes name watchOnly
          = .error e) := by
  refine ⟨?_, ?_, ?_⟩
  · intro ws loadRes createRes name watchOnly hmem
    simp [ensureWalletStep, hmem]
  · intro ws e name watchOnly hmem hcode
    simp [ensureWalletStep, hmem, hcode]
  · intro ws e createRes name watchOnly hmem hcode
    simp [ensureWalletStep, hmem, hcode]

/-- Witness for C7: all three branches at concrete inputs — an already
loaded wallet, a missing wallet (code -18) that gets created, and a
load failure with code -35 that propagates. -/
theorem ensureWallet_branch_semantics_witness :
    ensureWalletStep (Except.ok ["w1"]) (Except.ok ()) (Except.ok ()) "w1" false
        = .ok [.listwallets]
    ∧ ensureWalletStep (Except.ok []) (Except.error ⟨-18, "not found"⟩)
        (Except.ok ()) "w2" true
        = .ok [.listwallets, .loadwallet "w2" false, .createwallet "w2" true true]
    ∧ ensureWalletStep (Except.ok []) (Except.error ⟨-35, "already loaded"⟩)
        (Except.ok ()) "w3" false
        = .error ⟨-35, "already loaded"⟩ :=
  ⟨ensureWallet_branch_semantics.1 ["w1"] _ _ "w1" false (by decide),
   ensureWallet_branch_semantics.2.1 [] ⟨-18, "not found"⟩ "w2" true
     (by decide) (by decide),
   ensureWallet_branch_semantics.2.2 [] ⟨-35, "already loaded"⟩ _ "w3" false
     (by decide) (by decide)⟩

/-- C8 counterexample: at a balance of exactly 5 (which satisfies the
claimed "greater than or equal to the funding threshold (5 units)"),
`fundWallet` does NOT return after the initial balance check — the
strict `currentBalance > 5` test fails, so it goes on to request an
address, mine 50 blocks and re-read balances. -/
theorem fundWallet_runs_on_at_threshold :
    (5 : ℚ) ≥ 5
    ∧ fundWallet atThresholdEnv = .ok [.getbalance, .getnewaddress 7,
        .generatetoaddress 50 7, .getbalance, .getbalance]
    ∧ fundWallet atThresholdEnv ≠ .ok [.getbalance] := by
  refine ⟨le_refl 5, by decide, by decide⟩

/-- C8 (amended): whenever the initial balance read returns a value
strictly greater than 5, `fundWallet` returns immediately after that
single balance query — the trace is exactly one `getbalance`, with no
address request, no block generation and no miner transfer. -/
theorem fundWallet_shortcircuit_above_five (env : FundEnv) (b : ℚ)
    (hb : env.bal1 = .ok b) (h5 : b > 5) :
    fundWallet env = .ok [.getbalance] := by
  unfold fundWallet
  rw [hb]
  simp [h5]

/-- Witness for C8 (amended) at balance 6. -/
theorem fundWallet_shortcircuit_above_five_witness :
    fundWallet aboveThresholdEnv = .ok [.getbalance] :=
  fundWallet_shortcircuit_above_five aboveThresholdEnv 6 rfl (by norm_num)

/-- C3 counterexample: when the initial balance query fails, `fundWallet`
raises that error to its caller — the initial `getbalance`, the address
request, the mining request and the balance re-reads sit outside the
function's only try/catch, so their failures are not absorbed. -/
theorem fundWallet_raises_on_balance_failure :
    fundWallet balanceProbeDownEnv = .error ⟨-28, "Loading block index"⟩
    ∧ resultOk (fundWallet balanceProbeDownEnv) = false := by
  refine ⟨by decide, by decide⟩

/-- C3 (amended): `fundWallet` returns normally whenever the requests
outside its try/catch succeed — the balance reads, the address request
and the 50-block mining request; every failure inside the miner-wallet
fallback (miner listing, creation, loading, balance read, transfer,
confirmation block) is absorbed, as are low balances at every stage. -/
theorem fundWallet_returns_when_core_rpcs_ok (env : FundEnv)
    (b1 b2 b3 : ℚ) (a : Nat)
    (h1 : env.bal1 = .ok b1) (h2 : env.addr = .ok a) (h3 : env.mine50 = .ok ())
    (h4 : env.bal2 = .ok b2) (h5 : env.bal3 = .ok b3) :
    ∃ t, fundWallet env = .ok t := by
  unfold fundWallet
  simp only [h1, h2, h3, h4, h5]
  by_cases hb : b1 > 5
  · rw [if_pos hb]
    exact ⟨_, rfl⟩
  · rw [if_neg hb]
    exact ⟨_, rfl⟩

/-- Witness for C3 (amended): with the entire miner fallback failing and
balances stuck at 0, `fundWallet` still returns normally. -/
theorem fundWallet_returns_when_core_rpcs_ok_witness :
    ∃ t, fundWallet minerDownEnv = .ok t :=
  fundWallet_returns_when_core_rpcs_ok minerDownEnv 0 0 0 3 rfl rfl rfl rfl rfl

/-- C9 counterexample: a run of the good-privacy generator at
coordinator balance 0 in which the gateway rejects sends (at balance 0
a send of a positive amount fails on a real node): the degraded loop
`break`s after its first rejected attempt, so only 1 payment attempt is
recorded — not 3 — though the generator still returns normally. -/
theorem goodPrivacy_break_on_send_rejection :
    createGoodPrivacyPattern (fun ev => !ev.isSend) (fun _ : Nat => (3/100 : ℚ)) 0 ⟨0⟩
        = .ok (⟨2⟩, [.getbalance, .getnewaddress 0, .sendtoaddress 0 (3/100),
            .getnewaddress 1, .generatetoaddress 2 1])
    ∧ resultSendCount (createGoodPrivacyPattern (fun ev => !ev.isSend)
        (fun _ : Nat => (3/100 : ℚ)) 0 ⟨0⟩) = 1
    ∧ resultOk (createGoodPrivacyPattern (fun ev => !ev.isSend)
        (fun _ : Nat => (3/100 : ℚ)) 0 ⟨0⟩) = true
    ∧ (1 : Nat) ≠ 3 := by
  have h01 : (0 : ℚ) < 1 := by norm_num
  have hrun : createGoodPrivacyPattern (fun ev => !ev.isSend)
      (fun _ : Nat => (3/100 : ℚ)) 0 ⟨0⟩
      = .ok (⟨2⟩, [.getbalance, .getnewaddress 0, .sendtoaddress 0 (3/100),
          .getnewaddress 1, .generatetoaddress 2 1]) := by
    simp [createGoodPrivacyPattern, freshSendLoop, getnewaddressOp, Ev.isSend, h01]
  refine ⟨hrun, ?_, ?_, by decide⟩
  · rw [resultSendCount, hrun]
    simp [resultTrace, List.countP_cons, Ev.isSend]
  · rw [hrun]
    rfl

/-- Attempt-counting behaviour of the fresh-address send loop when the
gateway accepts every address request: the loop always returns normally,
records at most one payment attempt per iteration index, and records
exactly one per index when the gateway also accepts every send. -/
theorem freshSendLoop_attempts (env : Ev → Bool) (amts : Nat → ℚ)
    (hgn : ∀ a, env (.getnewaddress a) = true) :
    ∀ (idxs : List Nat) (s : GenState),
      ∃ s2 tr, freshSendLoop env amts idxs s = .ok (s2, tr)
        ∧ tr.countP Ev.isSend ≤ idxs.length
        ∧ ((∀ ev, env ev = true) → tr.countP Ev.isSend = idxs.length) := by
  intro idxs
  induction idxs with
  | nil => exact fun s => ⟨s, [], rfl, by simp, fun _ => by simp⟩
  | cons i rest ih =>
    intro s
    by_cases hs : env (.sendtoaddress s.fresh (amts i))
    · obtain ⟨s2, tr, hrun, hle, hall⟩ := ih ⟨s.fresh + 1⟩
      refine ⟨s2, .getnewaddress s.fresh :: .sendtoaddress s.fresh (amts i) :: tr,
        ?_, ?_, ?_⟩
      · simp [freshSendLoop, getnewaddressOp, hgn, hs, hrun]
      · simp only [List.countP_cons, Ev.isSend, List.length_cons]
        simp
        omega
      · intro hall2
        simp only [List.countP_cons, Ev.isSend, List.length_cons]
        simp [hall hall2]
    · refine ⟨⟨s.fresh + 1⟩,
        [.getnewaddress s.fresh, .sendtoaddress s.fresh (amts i)], ?_, ?_, ?_⟩
      · simp [freshSendLoop, getnewaddressOp, hgn, hs]
      · simp [List.countP_cons, Ev.isSend]
      · exact fun hall2 => absurd (hall2 _) hs

/-- C9 (amended): at coordinator balance 0 the good-privacy generator
degrades to at most 3 minimal-value payment attempts — exactly 3 when
the gateway accepts every send, stopping at the first rejected send
otherwise — and returns normally in every case, provided the non-send
requests (balance read, address requests, confirmation mining) are
accepted. -/
theorem goodPrivacy_degraded_attempts (env : Ev → Bool) (amts : Nat → ℚ)
    (s : GenState) (hNS : ∀ ev, Ev.isSend ev = false → env ev = true) :
    ∃ s2 tr, createGoodPrivacyPattern env amts 0 s = .ok (s2, tr)
      ∧ tr.countP Ev.isSend ≤ 3
      ∧ ((∀ ev, env ev = true) → tr.countP Ev.isSend = 3) := by
  have hgb : env .getbalance = true := hNS _ rfl
  have hgn : ∀ a, env (.getnewaddress a) = true := fun a => hNS _ rfl
  have hmine : ∀ n a, env (.generatetoaddress n a) = true := fun n a => hNS _ rfl
  have h01 : (0 : ℚ) < 1 := by norm_num
  obtain ⟨s2, tr, hloop, hle, hall⟩ := freshSendLoop_attempts env amts hgn [0, 1, 2] s
  refine ⟨⟨s2.fresh + 1⟩,
    Ev.getbalance :: tr ++ [.getnewaddress s2.fresh, .generatetoaddress 2 s2.fresh],
    ?_, ?_, ?_⟩
  · simp [createGoodPrivacyPattern, hgb, h01, hloop, getnewaddressOp, hgn, hmine]
  · simpa [List.countP_append, List.countP_cons, Ev.isSend] using hle
  · intro hall2
    simpa [List.countP_append, List.countP_cons, Ev.isSend] using hall hall2

/-- Witness for C9 (amended) with an all-accepting gateway: exactly 3
attempts at balance 0. -/
theorem goodPrivacy_degraded_attempts_witness :
    ∃ s2 tr, createGoodPrivacyPattern (fun _ : Ev => true)
        (fun _ : Nat => (3/100 : ℚ)) 0 ⟨0⟩ = .ok (s2, tr)
      ∧ tr.countP Ev.isSend ≤ 3
      ∧ ((∀ ev, (fun _ : Ev => true) ev = true) → tr.countP Ev.isSend = 3) :=
  goodPrivacy_degraded_attempts (fun _ : Ev => true) (fun _ : Nat => (3/100 : ℚ))
    ⟨0⟩ (fun _ _ => rfl)

/-- C10 counterexample: at coordinator balance 0.1 (inside the claimed
range 0.1 ≤ b < 8, with total attempted amount 4 × 0.05 exceeding the
balance) a gateway that rejects the send to the second address — as a
real node does once funds run out — ends the loop at that rejection:
only 2 of the 4 addresses receive a send attempt, yet the call returns
normally. -/
theorem fundMultisig_stops_at_first_rejected_send :
    resultOk (fundMultisigAddresses rejectAddr11 [10, 11, 12, 13] (1/10) ⟨0⟩) = true
    ∧ resultSendCount (fundMultisigAddresses rejectAddr11 [10, 11, 12, 13]
        (1/10) ⟨0⟩) = 2
    ∧ (2 : Nat) ≠ 4
    ∧ (1/10 : ℚ) ≥ 1/10 ∧ (1/10 : ℚ) < 8 := by
  have h8i : (10 : ℚ)⁻¹ < 8 := by norm_num
  have hga : (50 : ℚ)⁻¹ < 20⁻¹ := by norm_num
  have hamti : ((20 : ℚ)⁻¹ ⊔ ((10 : ℚ)⁻¹ - 5⁻¹) / 4) = 20⁻¹ :=
    max_eq_left (by norm_num)
  have hrun : fundMultisigAddresses rejectAddr11 [10, 11, 12, 13] (1/10) ⟨0⟩
      = .ok (⟨1⟩, [.getbalance, .sendtoaddress 10 (jsFloor2 (1/20)),
          .sendtoaddress 11 (jsFloor2 (1/20)), .getnewaddress 0,
          .generatetoaddress 6 0]) := by
    simp [fundMultisigAddresses, reducedFundLoop, getnewaddressOp, rejectAddr11,
      h8i, hga, hamti]
  refine ⟨?_, ?_, by decide, by norm_num, by norm_num⟩
  · rw [hrun]
    rfl
  · rw [resultSendCount, hrun]
    simp [resultTrace, List.countP_cons, Ev.isSend]

/-- Reduced-funding loop under an all-accepting gateway: one send of the
rounded amount to every address, in order. -/
theorem reducedFundLoop_all (amt : ℚ) (hamt : amt > 1/50) :
    ∀ addrs : List Nat, reducedFundLoop (fun _ : Ev => true) amt addrs
      = addrs.map (fun a => Ev.sendtoaddress a (jsFloor2 amt)) := by
  intro addrs
  induction addrs with
  | nil => rfl
  | cons a rest ih =>
    have hamt2 : (50 : ℚ)⁻¹ < amt := by rw [← one_div]; exact hamt
    simp [reducedFundLoop, ih, hamt, hamt2]

/-- C10 (amended): in the reduced-funding branch (0.1 ≤ b < 8) the
per-address amount max(0.05, (b − 0.2)/4) is always at least 0.05, so
the `> 0.02` guard never skips an address; sends are attempted to the 4
addresses in order — to every one of them whenever the gateway accepts
each send, even though the total attempted amount can exceed b — while a
rejected send ends the loop early (previous counterexample). -/
theorem fundMultisig_reduced_branch_guard (b : ℚ) (h1 : 1/10 ≤ b) (h2 : b < 8) :
    (1/20 : ℚ) ≤ max (1/20) ((b - 1/5) / 4)
    ∧ max (1/20) ((b - 1/5) / 4) > 1/50
    ∧ ∀ (env : Ev → Bool) (a0 a1 a2 a3 : Nat) (s : GenState),
        (∀ ev, env ev = true) →
        ∃ s2 tr, fundMultisigAddresses env [a0, a1, a2, a3] b s = .ok (s2, tr)
          ∧ tr.filter Ev.isSend
              = [.sendtoaddress a0 (jsFloor2 (max (1/20) ((b - 1/5) / 4))),
                 .sendtoaddress a1 (jsFloor2 (max (1/20) ((b - 1/5) / 4))),
                 .sendtoaddress a2 (jsFloor2 (max (1/20) ((b - 1/5) / 4))),
                 .sendtoaddress a3 (jsFloor2 (max (1/20) ((b - 1/5) / 4)))] := by
  have hmax : (1/20 : ℚ) ≤ max (1/20) ((b - 1/5) / 4) := le_max_left _ _
  have hguard : max (1/20) ((b - 1/5) / 4) > 1/50 :=
    lt_of_lt_of_le (by norm_num) hmax
  refine ⟨hmax, hguard, ?_⟩
  intro env a0 a1 a2 a3 s hall
  have henv : env = fun _ : Ev => true := funext hall
  subst henv
  have hn1 : ¬ b < 1/10 := not_lt.mpr h1
  have hn1i : ¬ b < (10 : ℚ)⁻¹ := by rw [← one_div]; exact hn1
  have hloop := reducedFundLoop_all (max (1/20) ((b - 1/5) / 4)) hguard
    [a0, a1, a2, a3]
  simp only [one_div] at hloop
  refine ⟨⟨s.fresh + 1⟩,
    Ev.getbalance :: ([a0, a1, a2, a3].map (fun a =>
        Ev.sendtoaddress a (jsFloor2 (max (1/20) ((b - 1/5) / 4)))))
      ++ [.getnewaddress s.fresh, .generatetoaddress 6 s.fresh], ?_, ?_⟩
  · simp [fundMultisigAddresses, hn1, hn1i, h2, getnewaddressOp]
    rw [hloop]
    simp
  · simp [Ev.isSend]

/-- No create of the miner wallet mutates a scenario wallet. -/
theorem mut_miner_create (b ok : Bool) :
    Ev.mutatesScenarioWallet (.createwallet "miner" b ok) = false := by
  cases ok
  · rfl
  · simp only [Ev.mutatesScenarioWallet, Bool.true_and]
    decide

/-- No load of the miner wallet mutates a scenario wallet. -/
theorem mut_miner_load (ok : Bool) :
    Ev.mutatesScenarioWallet (.loadwallet "miner" ok) = false := by
  cases ok
  · rfl
  · simp only [Ev.mutatesScenarioWallet, Bool.true_and]
    decide

/-- Every event emitted by a successful `setupInitialState` run leaves
the scenario wallets untouched: it only works on the miner wallet and
the chain tip. -/
theorem setupInitialState_events (st st1 : NodeState) (t : List Ev)
    (h : setupInitialState st = .ok (st1, t)) :
    ∀ e ∈ t, Ev.mutatesScenarioWallet e = false := by
  have hinc : msgIncludes "already exists" "Wallet already exists" = true := by
    decide
  by_cases hc : "miner" ∈ st.onDisk ∨ "miner" ∈ st.loaded
  · simp only [setupInitialState, createwalletN, if_pos hc, hinc, if_true] at h
    by_cases hl : "miner" ∈ st.loaded
    · simp only [getnewaddressN, if_pos hl] at h
      rw [Except.ok.injEq, Prod.mk.injEq] at h
      obtain ⟨-, rfl⟩ := h
      intro e he
      simp at he
      rcases he with rfl | rfl | rfl
      · exact mut_miner_create false false
      · rfl
      · rfl
    · simp only [getnewaddressN, if_neg hl] at h
      simp at h
  · simp only [setupInitialState, createwalletN, if_neg hc] at h
    have hl : "miner" ∈ ("miner" :: st.loaded) := List.mem_cons_self _ _
    simp only [getnewaddressN, if_pos hl] at h
    rw [Except.ok.injEq, Prod.mk.injEq] at h
    obtain ⟨-, rfl⟩ := h
    intro e he
    simp at he
    rcases he with rfl | rfl | rfl
    · exact mut_miner_create false true
    · rfl
    · rfl

/-- Every event emitted by a successful `ensureMinerWalletN` run leaves
the scenario wallets untouched. -/
theorem ensureMinerWalletN_events (st st1 : NodeState) (t : List Ev)
    (h : ensureMinerWalletN st = .ok (st1, t)) :
    ∀ e ∈ t, Ev.mutatesScenarioWallet e = false := by
  have hinc : msgIncludes "already exists" "Wallet already exists" = true := by
    decide
  by_cases hl : "miner" ∈ st.loaded
  · simp only [ensureMinerWalletN, if_pos hl] at h
    rw [Except.ok.injEq, Prod.mk.injEq] at h
    obtain ⟨-, rfl⟩ := h
    intro e he
    simp only [List.mem_singleton] at he
    subst he
    rfl
  · by_cases hc : "miner" ∈ st.onDisk ∨ "miner" ∈ st.loaded
    · have hd : "miner" ∈ st.onDisk := hc.resolve_right hl
      simp only [ensureMinerWalletN, if_neg hl, createwalletN, if_pos hc, hinc,
        if_true, loadwalletN, if_neg hl, if_pos hd] at h
      rw [Except.ok.injEq, Prod.mk.injEq] at h
      obtain ⟨-, rfl⟩ := h
      intro e he
      simp only [List.mem_cons, List.mem_singleton, List.not_mem_nil,
        or_false] at he
      rcases he with rfl | rfl | rfl
      · rfl
      · exact mut_miner_create false false
      · exact mut_miner_load true
    · simp only [ensureMinerWalletN, if_neg hl, createwalletN, if_neg hc] at h
      rw [Except.ok.injEq, Prod.mk.injEq] at h
      obtain ⟨-, rfl⟩ := h
      intro e he
      simp only [List.mem_cons, List.mem_singleton, List.not_mem_nil,
        or_false] at he
      rcases he with rfl | rfl
      · rfl
      · exact mut_miner_create false true

/-- Every event emitted by a successful `setupBitcoinEnvironment` run
leaves the scenario wallets untouched. -/
theorem setup_events_nonmut (st st1 : NodeState) (t : List Ev)
    (h : setupBitcoinEnvironment st = .ok (st1, t)) :
    ∀ e ∈ t, Ev.mutatesScenarioWallet e = false := by
  unfold setupBitcoinEnvironment at h
  by_cases hb : st.blocks < 101
  · rw [if_pos hb] at h
    cases hsi : setupInitialState st with
    | error e => rw [hsi] at h; simp at h
    | ok r =>
      obtain ⟨st2, t2⟩ := r
      rw [hsi] at h
      rw [Except.ok.injEq, Prod.mk.injEq] at h
      obtain ⟨-, rfl⟩ := h
      intro e he
      rcases List.mem_cons.mp he with rfl | he2
      · rfl
      · exact setupInitialState_events st st2 t2 hsi e he2
  · rw [if_neg hb] at h
    cases hsi : ensureMinerWalletN st with
    | error e => rw [hsi] at h; simp at h
    | ok r =>
      obtain ⟨st2, t2⟩ := r
      rw [hsi] at h
      rw [Except.ok.injEq, Prod.mk.injEq] at h
      obtain ⟨-, rfl⟩ := h
      intro e he
      rcases List.mem_cons.mp he with rfl | he2
      · rfl
      · exact ensureMinerWalletN_events st st2 t2 hsi e he2

/-- Every event the cleanup pass emits is an `unloadwallet` attempt. -/
theorem unloadAll_events (ws : List String) :
    ∀ (st : NodeState), ∀ e ∈ (unloadAll ws st).2, e.isUnload = true := by
  induction ws with
  | nil =>
    intro st e he
    simp [unloadAll] at he
  | cons w rest ih =>
    intro st e he
    simp only [unloadAll, List.mem_cons] at he
    rcases he with rfl | he
    · by_cases hm : w ∈ st.loaded <;> simp [unloadwalletN, hm, Ev.isUnload]
    · exact ih _ e he

/-- With every scenario fixture present, the per-scenario loop emits
only access checks, which mutate nothing. -/
theorem scenarioChecks_nonmut (fix : List String) :
    ∀ scs : List String, (∀ sc ∈ scs, sc ∈ fix) →
      ∀ e ∈ scenarioChecks fix scs, e.mutatesScenarioWallet = false := by
  intro scs
  induction scs with
  | nil =>
    intro _ e he
    simp [scenarioChecks] at he
  | cons sc rest ih =>
    intro hmem e he
    have hsc : sc ∈ fix := hmem sc (List.mem_cons_self _ _)
    rw [scenarioChecks, if_pos hsc] at he
    rcases List.mem_cons.mp he with rfl | he2
    · rfl
    · exact ih (fun x hx => hmem x (List.mem_cons_of_mem _ hx)) e he2

/-- C1 counterexample: from a state in which all four fixture documents
exist and a scenario signer wallet is still loaded (the state a first
completed run leaves behind), the second invocation still issues — and
succeeds at — an `unloadwallet` of that scenario wallet, because
`cleanupPreviousWallets` runs unconditionally before the fixture checks.
Its wallet-mutating RPC list is therefore not empty. -/
theorem cleanup_unloads_on_second_run :
    allFixturesPresent scenarioNames
    ∧ Ev.unloadwallet "bad_privacy_signer_1" true
        ∈ runMutations (generateAllWalletsRun scenarioNames c1State)
    ∧ runMutations (generateAllWalletsRun scenarioNames c1State) ≠ [] := by
  refine ⟨fun sc hsc => hsc, by decide, by decide⟩

/-- C1 (amended): for every state in which all four fixture documents
exist, a further invocation of the orchestration performs no
scenario-wallet creation, load, funding or spend; the only
scenario-wallet-mutating RPCs it can issue are the unconditional
`unloadwallet` attempts of the cleanup pass. -/
theorem generateAllWallets_second_run_frame (fix : List String) (st : NodeState)
    (hfix : allFixturesPresent fix) :
    (runMutations (generateAllWalletsRun fix st)).all Ev.isUnload = true := by
  unfold generateAllWalletsRun
  cases hs : setupBitcoinEnvironment st with
  | error e => rfl
  | ok r =>
    obtain ⟨st1, t1⟩ := r
    simp only [runMutations, List.filter_append, List.all_append,
      Bool.and_eq_true]
    refine ⟨⟨?_, ?_⟩, ?_⟩ <;> rw [List.all_eq_true] <;> intro e he <;>
      rw [List.mem_filter] at he
    · exact absurd he.2 (by rw [setup_events_nonmut st st1 t1 hs e he.1]; decide)
    · exact unloadAll_events scenarioWalletNames st1 e he.1
    · exact absurd he.2
        (by rw [scenarioChecks_nonmut fix scenarioNames hfix e he.1]; decide)

/-- Witness for C1 (amended) at the concrete post-first-run state. -/
theorem generateAllWallets_second_run_frame_witness :
    (runMutations (generateAllWalletsRun scenarioNames c1State)).all
      Ev.isUnload = true :=
  generateAllWallets_second_run_frame scenarioNames c1State (fun _ hsc => hsc)

/-- Witness for C10 (amended) at balance 4 with an all-accepting
gateway. -/
theorem fundMultisig_reduced_branch_guard_witness :
    ∃ s2 tr, fundMultisigAddresses (fun _ => true) [10, 11, 12, 13] 4 ⟨0⟩
        = .ok (s2, tr)
      ∧ tr.filter Ev.isSend
          = [.sendtoaddress 10 (jsFloor2 (max (1/20) ((4 - 1/5) / 4))),
             .sendtoaddress 11 (jsFloor2 (max (1/20) ((4 - 1/5) / 4))),
             .sendtoaddress 12 (jsFloor2 (max (1/20) ((4 - 1/5) / 4))),
             .sendtoaddress 13 (jsFloor2 (max (1/20) ((4 - 1/5) / 4)))] :=
  (fundMultisig_reduced_branch_guard 4 (by norm_num) (by norm_num)).2.2
    (fun _ => true) 10 11 12 13 ⟨0⟩ (fun _ => rfl)

